import Mathlib

/-!
Verification development for the QuicServe RPC runtime.

The definitions below are a shallow embedding of the Rust sources:
`src/lib.rs` (wire model and serialization dispatch), `src/error.rs`
(error taxonomy and display strings), `src/transport.rs` (message
stream contract), `src/client.rs` (call path, pending table, close),
`src/server.rs` (service registry and session loop), `src/utils.rs`
(parameter validation) and `src/config.rs` (configuration builders).

Machine integers are embedded as `Fin (2^64)` for `u64` request ids
(addition wraps exactly like `u64::wrapping_add`) and `Fin 256` for
octets.  Fallible Rust functions returning `Result<T, Error>` become
`Except Error T`.  Byte buffers produced by the external serde_json /
prost libraries are embedded at those libraries' data-model level: a
JSON document tree for serde_json and a protobuf field list for prost,
so that the text-printing / varint layer of the external libraries
(out of scope of this repository) is treated as faithful.
-/

namespace QuicServe

/-- Size of the u64 identifier space. -/
def U64 : Nat := 2 ^ 64

instance : NeZero U64 := ⟨by decide⟩

/-- A single octet. -/
abbrev Byte := Fin 256

/-- Opaque byte payloads (the Rust `bytes::Bytes` values). -/
abbrev ByteSeq := List Byte

/-- Error kinds, from `src/error.rs`.  Wrapped foreign error values are
represented by their display strings. -/
inductive Error where
  | Io (s : String)
  | Quic (s : String)
  | Http3 (s : String)
  | WebTransport (s : String)
  | Serialization (s : String)
  | Deserialization (s : String)
  | Encoding (s : String)
  | Decoding (s : String)
  | MethodNotFound (s : String)
  | Timeout
  | RpcFailed (s : String)
  | ConnectionClosed
  | InvalidConfig (s : String)
  | AuthenticationFailed (s : String)
  | CertificateError (s : String)
  | Other (s : String)
deriving DecidableEq, Repr

/-- Display form of an error, mirroring the thiserror `#[error(...)]`
format strings in `src/error.rs`.  The server puts this string into the
`error` field of a response (`err.to_string()` in `handle_session`). -/
def Error.display : Error → String
  | .Io s => "IO error: " ++ s
  | .Quic s => "QUIC connection error: " ++ s
  | .Http3 s => "HTTP/3 error: " ++ s
  | .WebTransport s => "WebTransport error: " ++ s
  | .Serialization s => "Serialization error: " ++ s
  | .Deserialization s => "Deserialization error: " ++ s
  | .Encoding s => "Protocol buffer encoding error: " ++ s
  | .Decoding s => "Protocol buffer decoding error: " ++ s
  | .MethodNotFound s => "Method not found: " ++ s
  | .Timeout => "Request timeout"
  | .RpcFailed s => "RPC call failed: " ++ s
  | .ConnectionClosed => "Connection closed"
  | .InvalidConfig s => "Invalid configuration: " ++ s
  | .AuthenticationFailed s => "Authentication failed: " ++ s
  | .CertificateError s => "Certificate error: " ++ s
  | .Other s => s

/-- Serialization format selector, from `src/lib.rs`. -/
inductive SerializationFormat where
  | Protobuf
  | Json
deriving DecidableEq, Repr

/-- RPC request envelope, from `src/lib.rs`. -/
structure Request where
  id : Fin U64
  method : String
  payload : ByteSeq
deriving DecidableEq, Repr

/-- RPC response envelope, from `src/lib.rs`. -/
structure Response where
  id : Fin U64
  payload : Option ByteSeq
  error : Option String
deriving DecidableEq, Repr

/-- JSON document tree: the serde_json data model that
`serde_json::to_vec` prints and `serde_json::from_slice` parses. -/
inductive Json where
  | null
  | num (n : Nat)
  | str (s : String)
  | arr (elems : List Json)
  | obj (fields : List (String × Json))

/-- serde serializes `bytes::Bytes` as a sequence of integers. -/
def jsonOfBytes (bs : ByteSeq) : Json :=
  .arr (bs.map fun b => .num b.val)

/-- JSON form of a `Request` under the serde derive in `src/lib.rs`. -/
def Request.toJson (r : Request) : Json :=
  .obj [("id", .num r.id.val), ("method", .str r.method),
        ("payload", jsonOfBytes r.payload)]

/-- JSON form of a `Response` under the serde derive in `src/lib.rs`;
`Option` fields serialize as `null` when absent. -/
def Response.toJson (p : Response) : Json :=
  .obj [("id", .num p.id.val),
        ("payload", match p.payload with | some bs => jsonOfBytes bs | none => .null),
        ("error", match p.error with | some e => .str e | none => .null)]

/-- Field lookup in a JSON object (serde's map visitor accepts fields in
any order; the first occurrence of a key wins). -/
def jget (fields : List (String × Json)) (key : String) : Option Json :=
  (fields.find? fun f => f.1 == key).map (·.2)

/-- A field that serde requires to be present. -/
def jfield (fields : List (String × Json)) (key : String) : Except Error Json :=
  match jget fields key with
  | some v => .ok v
  | none => .error (.Deserialization ("missing field " ++ key))

/-- Decode a JSON number as a u64. -/
def decU64 : Json → Except Error (Fin U64)
  | .num n =>
      if h : n < U64 then .ok ⟨n, h⟩
      else .error (.Deserialization "invalid value: integer out of u64 range")
  | _ => .error (.Deserialization "invalid type: expected u64")

/-- Decode a JSON number as one octet. -/
def decByte : Json → Except Error Byte
  | .num n =>
      if h : n < 256 then .ok ⟨n, h⟩
      else .error (.Deserialization "invalid value: integer out of u8 range")
  | _ => .error (.Deserialization "invalid type: expected u8")

/-- Decode a list of JSON values element-wise as bytes. -/
def decByteList : List Json → Except Error ByteSeq
  | [] => .ok []
  | j :: js => do
      let b ← decByte j
      let bs ← decByteList js
      pure (b :: bs)

/-- Decode a JSON array of numbers as bytes. -/
def decBytes : Json → Except Error ByteSeq
  | .arr elems => decByteList elems
  | _ => .error (.Deserialization "invalid type: expected byte sequence")

/-- Decode a JSON string. -/
def decStr : Json → Except Error String
  | .str s => .ok s
  | _ => .error (.Deserialization "invalid type: expected string")

/-- serde `Option` semantics: a missing field or an explicit `null`
decodes to `none`. -/
def decOpt (dec : Json → Except Error α) : Option Json → Except Error (Option α)
  | none => .ok none
  | some .null => .ok none
  | some v => (dec v).map some

/-- Decode a `Request` from JSON: all three fields are required. -/
def Request.fromJson : Json → Except Error Request
  | .obj fields => do
      let i ← jfield fields "id" >>= decU64
      let m ← jfield fields "method" >>= decStr
      let p ← jfield fields "payload" >>= decBytes
      pure ⟨i, m, p⟩
  | _ => .error (.Deserialization "invalid type: expected object")

/-- Decode a `Response` from JSON: `payload` and `error` are optional. -/
def Response.fromJson : Json → Except Error Response
  | .obj fields => do
      let i ← jfield fields "id" >>= decU64
      let p ← decOpt decBytes (jget fields "payload")
      let e ← decOpt decStr (jget fields "error")
      pure ⟨i, p, e⟩
  | _ => .error (.Deserialization "invalid type: expected object")

/-- Protobuf wire values at the prost data-model level. -/
inductive ProtoValue where
  | varint (n : Fin U64)
  | bytesV (bs : ByteSeq)
  | strV (s : String)

/-- A protobuf field: field number paired with its value. -/
abbrev ProtoField := Nat × ProtoValue

/-- Modelled from the spec: the prost `Message` encoding of `Request`.
The repository's `build.rs` compiles `src/protos/service.proto`, which
is not present under `src/`; per the wire model of spec §4.D the
envelope is a proto3 message with `payload` as a bytes field, so fields
are numbered `id = 1`, `method = 2`, `payload = 3` and fields holding
their default value are omitted, as proto3 prescribes. -/
def Request.toProto (r : Request) : List ProtoField :=
  (if r.id.val = 0 then [] else [(1, .varint r.id)]) ++
  (if r.method = "" then [] else [(2, .strV r.method)]) ++
  (if r.payload = [] then [] else [(3, .bytesV r.payload)])

/-- Modelled from the spec: prost decoding of `Request` — start from the
default message and apply each recognized field; unknown fields are
ignored (spec §4.D). -/
def Request.fromProto (fs : List ProtoField) : Except Error Request :=
  .ok (fs.foldl
    (fun acc f =>
      match f with
      | (1, .varint n) => {acc with id := n}
      | (2, .strV s) => {acc with method := s}
      | (3, .bytesV bs) => {acc with payload := bs}
      | _ => acc)
    ⟨0, "", []⟩)

/-- Modelled from the spec: the prost encoding of `Response`.  The two
`Option` fields have explicit presence (proto3 `optional`): `none` is
absent, `some` is always emitted, even when the payload is empty. -/
def Response.toProto (p : Response) : List ProtoField :=
  (if p.id.val = 0 then [] else [(1, .varint p.id)]) ++
  (match p.payload with | some bs => [(2, .bytesV bs)] | none => []) ++
  (match p.error with | some e => [(3, .strV e)] | none => [])

/-- Modelled from the spec: prost decoding of `Response`. -/
def Response.fromProto (fs : List ProtoField) : Except Error Response :=
  .ok (fs.foldl
    (fun acc f =>
      match f with
      | (1, .varint n) => {acc with id := n}
      | (2, .bytesV bs) => {acc with payload := some bs}
      | (3, .strV s) => {acc with error := some s}
      | _ => acc)
    ⟨0, none, none⟩)

/-- On-wire bytes of one frame, abstracted per format: a JSON document
for serde_json output, a protobuf field list for prost output. -/
inductive Wire where
  | json (j : Json)
  | proto (fs : List ProtoField)

/-- The per-type encoders and decoders that the generic
`serialize`/`deserialize` functions of `src/lib.rs` dispatch to. -/
class WireFormat (α : Type) where
  encJson : α → Json
  decJson : Json → Except Error α
  encProto : α → List ProtoField
  decProto : List ProtoField → Except Error α

instance : WireFormat Request :=
  ⟨Request.toJson, Request.fromJson, Request.toProto, Request.fromProto⟩

instance : WireFormat Response :=
  ⟨Response.toJson, Response.fromJson, Response.toProto, Response.fromProto⟩

/-- Serialization dispatch from `src/lib.rs` (`serialize`).  Encoding
the envelope types cannot fail, so the `Result` of the Rust signature
always takes the `Ok` branch and the embedding returns the wire value
directly. -/
def serialize [WireFormat α] (value : α) (format : SerializationFormat) : Wire :=
  match format with
  | .Json => .json (WireFormat.encJson value)
  | .Protobuf => .proto (WireFormat.encProto value)

/-- Deserialization dispatch from `src/lib.rs` (`deserialize`).  Bytes
that are not a document of the expected format fail to parse. -/
def deserialize [WireFormat α] (data : Wire) (format : SerializationFormat) :
    Except Error α :=
  match format, data with
  | .Json, .json j => WireFormat.decJson j
  | .Protobuf, .proto fs => WireFormat.decProto fs
  | .Json, .proto _ => .error (.Deserialization "expected value")
  | .Protobuf, .json _ => .error (.Decoding "failed to decode Protobuf message")

/-- Configuration, from `src/config.rs`.  Path-valued options are
embedded as presence flags plus an oracle for the file-system outcome
where one is needed; `addr` and TLS material do not influence the
verified logic. -/
structure Config where
  hasCertPath : Bool
  hasKeyPath : Bool
  hasCaPath : Bool
  verifyPeer : Bool
  format : SerializationFormat
  timeoutMs : Nat
  maxConcurrentStreams : Nat
  keepAliveMs : Option Nat
  idleTimeoutMs : Option Nat
  serverName : Option String

/-- Default configuration values, from `Config::default` in
`src/config.rs`. -/
def Config.default : Config :=
  { hasCertPath := false, hasKeyPath := false, hasCaPath := false,
    verifyPeer := true, format := .Protobuf, timeoutMs := 30000,
    maxConcurrentStreams := 100, keepAliveMs := some 5000,
    idleTimeoutMs := some 30000, serverName := none }

/-- Parameter validation, from `validate_connection_params` in
`src/utils.rs`: keep-alive at least 100 ms, idle timeout at least
1000 ms, max concurrent streams in 1..=1000. -/
def validateConnectionParams (keepAliveMs idleTimeoutMs : Option Nat)
    (maxConcurrentStreams : Nat) : Except Error Unit := do
  if let some keepAlive := keepAliveMs then
    if keepAlive < 100 then
      throw (.InvalidConfig "Keep-alive interval must be at least 100ms")
  if let some idleTimeout := idleTimeoutMs then
    if idleTimeout < 1000 then
      throw (.InvalidConfig "Idle timeout must be at least 1000ms")
  if maxConcurrentStreams = 0 || maxConcurrentStreams > 1000 then
    throw (.InvalidConfig "Max concurrent streams must be between 1 and 1000")
  pure ()

/-- Client configuration builder, from `Config::build_client_config` in
`src/config.rs`: with a CA path the PEM material is read and installed
(`caOk` is the oracle for that file-system interaction); otherwise the
native roots are used.  The transport parameters are copied without any
validation — `validate_connection_params` is never invoked. -/
def buildClientConfig (c : Config) (caOk : Bool) : Except Error Unit :=
  if c.hasCaPath then
    if caOk then .ok ()
    else .error (.CertificateError "Failed to read CA cert")
  else .ok ()

/-- Server configuration builder, from `Config::build_server_config` in
`src/config.rs`: requires certificate and key paths, then loads and
parses them (`certOk` is the oracle for the file-system and PEM
outcome).  No connection-parameter validation is performed. -/
def buildServerConfig (c : Config) (certOk : Bool) : Except Error Unit :=
  match c.hasCertPath, c.hasKeyPath with
  | false, _ => .error (.InvalidConfig "Certificate file path is required for server")
  | true, false => .error (.InvalidConfig "Private key file path is required for server")
  | true, true =>
      if certOk then .ok ()
      else .error (.CertificateError "Failed to read certificate file")

/-- Client-side pending-call table: request id mapped to the one-shot
sender of that call (senders are identified by opaque tokens).
`HashMap::insert` replaces any entry with the same key. -/
abbrev PendingTable := List (Fin U64 × Nat)

/-- Insert into the pending table, replacing an existing entry with the
same id (the semantics of `HashMap::insert` in `src/client.rs`). -/
def pendingInsert (id : Fin U64) (tok : Nat) (p : PendingTable) : PendingTable :=
  (id, tok) :: p.filter fun e => e.1 != id

/-- Remove a pending entry (the demultiplexer's `HashMap::remove`). -/
def pendingRemove (id : Fin U64) (p : PendingTable) : PendingTable :=
  p.filter fun e => e.1 != id

/-- Look up the sender registered for an id. -/
def pendingLookup (id : Fin U64) (p : PendingTable) : Option Nat :=
  (p.find? fun e => e.1 == id).map (·.2)

/-- Client state, from the fields of `struct Client` in
`src/client.rs`.  The session and message stream are present or absent;
their transport internals are outside the verified logic. -/
structure ClientState where
  session : Option Unit
  messageStream : Option Unit
  pending : PendingTable
  nextId : Fin U64
deriving DecidableEq

/-- Client construction, from `Client::new` in `src/client.rs`: build
the client configuration, create the QUIC endpoint (`endpointOk` is the
oracle for that socket operation, surfacing as `Error::Quic`), and start
with empty state and id counter 0. -/
def clientNew (config : Config) (caOk endpointOk : Bool) :
    Except Error ClientState :=
  match buildClientConfig config caOk with
  | .error e => .error e
  | .ok () =>
      if endpointOk then
        .ok { session := none, messageStream := none, pending := [], nextId := 0 }
      else .error (.Quic "Failed to create endpoint")

/-- Server registry and construction, from `Server::new` in
`src/server.rs`: the registry starts empty. -/
def serverNew (config : Config) (certOk endpointOk : Bool) :
    Except Error Unit :=
  match buildServerConfig config certOk with
  | .error e => .error e
  | .ok () =>
      if endpointOk then .ok ()
      else .error (.Quic "Failed to create endpoint")

/-- Outcome of awaiting the one-shot receiver inside
`tokio::time::timeout` in `Client::call`: the demultiplexer delivered a
result in time, the deadline elapsed first, or the sender was dropped
without a value (client closed). -/
inductive AwaitOutcome where
  | arrived (res : Except Error ByteSeq)
  | deadline
  | senderDropped

instance {ε α : Type} [DecidableEq ε] [DecidableEq α] : DecidableEq (Except ε α) :=
  fun a b =>
    match a, b with
    | .ok x, .ok y =>
        if h : x = y then isTrue (by rw [h]) else isFalse (by simp [h])
    | .error x, .error y =>
        if h : x = y then isTrue (by rw [h]) else isFalse (by simp [h])
    | .ok _, .error _ => isFalse (by simp)
    | .error _, .ok _ => isFalse (by simp)

/-- Result of one `Client::call`, with the request id that was used,
the resulting client state, the call's outcome (raw response payload
bytes or error), and whether the request frame was handed to the
stream. -/
structure CallResult where
  reqId : Fin U64
  state : ClientState
  outcome : Except Error ByteSeq
  sentFrame : Bool
deriving DecidableEq

/-- One execution of `Client::call` from `src/client.rs` (lines
184-238), with the demultiplexer's matching removal folded into the
`arrived` case:

1. take `id = *next_id` and store `id.wrapping_add(1)` back;
2. register `(id, sender)` in the pending table;
3. if the message stream is absent, fail with `ConnectionClosed`
   (nothing was sent, and the pending entry stays registered);
4. send the frame; a transport failure surfaces as `WebTransport`
   (`sendOk` is the oracle for the stream write);
5. await the receiver under `timeout(config.timeout_ms)`: on expiry
   fail with `Timeout` — the pending entry is not touched; on a dropped
   sender fail with `ConnectionClosed`; on an arrived result return it
   (the demultiplexer removed the entry before sending it). -/
def clientCall (st : ClientState) (tok : Nat) (sendOk : Bool)
    (await : AwaitOutcome) : CallResult :=
  let id := st.nextId
  let st1 : ClientState :=
    { st with nextId := st.nextId + 1, pending := pendingInsert id tok st.pending }
  match st1.messageStream with
  | none =>
      { reqId := id, state := st1, outcome := .error .ConnectionClosed,
        sentFrame := false }
  | some _ =>
      if sendOk then
        match await with
        | .deadline =>
            { reqId := id, state := st1, outcome := .error .Timeout,
              sentFrame := true }
        | .senderDropped =>
            { reqId := id, state := st1, outcome := .error .ConnectionClosed,
              sentFrame := true }
        | .arrived res =>
            { reqId := id,
              state := { st1 with pending := pendingRemove id st1.pending },
              outcome := res, sentFrame := true }
      else
        { reqId := id, state := st1,
          outcome := .error (.WebTransport "Failed to send request"),
          sentFrame := true }

/-- `Client::close` from `src/client.rs` (lines 241-260): take and close
the session, drop the message stream, drain every pending entry
(each drained sender receives `ConnectionClosed`), and return `Ok`. -/
def clientClose (st : ClientState) : ClientState × Except Error Unit :=
  ({ session := none, messageStream := none, pending := [], nextId := st.nextId },
   .ok ())

/-- A service handle, from the `Service` trait in `src/lib.rs`:
`call` runs a method on a payload, `methods` lists the method names.
`callDuration` is the wall-clock time the handler future takes, used to
decide the `tokio::time::timeout` race in `handle_session`. -/
structure Service where
  call : String → ByteSeq → Except Error ByteSeq
  callDuration : String → ByteSeq → Nat
  methods : List String

/-- The server's service registry
(`HashMap<String, Arc<dyn Service>>`). -/
abbrev Registry := List (String × Service)

/-- Registry lookup (`HashMap::get`). -/
def findService (reg : Registry) (name : String) : Option Service :=
  (reg.find? fun e => e.1 == name).map (·.2)

/-- `Server::register_service` from `src/server.rs` (lines 48-52): a
plain `HashMap::insert` — any existing entry under the same name is
replaced — followed by `Ok(())`. -/
def registerService (reg : Registry) (name : String) (service : Service) :
    Registry × Except Error Unit :=
  ((name, service) :: reg.filter fun e => e.1 != name, .ok ())

/-- The method split of `handle_session`:
`request.method.splitn(2, '.')` yields two parts exactly when the
string contains a dot; the first dot splits, the rest of the string
(later dots included) is the method part. -/
def splitDotAux : List Char → Option (List Char × List Char)
  | [] => none
  | c :: cs =>
      if c = '.' then some ([], cs)
      else (splitDotAux cs).map fun p => (c :: p.1, p.2)

/-- Split a method path at the first dot; `none` when no dot exists
(the `parts.len() != 2` branch of `handle_session`). -/
def splitFirstDot (s : String) : Option (String × String) :=
  (splitDotAux s.data).map fun p => (⟨p.1⟩, ⟨p.2⟩)

/-- Dispatch of one decoded request, from `handle_session` in
`src/server.rs` (lines 167-228):

* no dot in the method → `error = "Invalid method format. ..."`,
  original id preserved;
* unknown service → `error = "Service not found: <service>"`, original
  id preserved, no payload;
* otherwise run the handler under `timeout(config.timeout_ms)`; a
  deadline miss yields `Err(Error::Timeout)`; the response carries the
  payload on success and the error's display string on failure. -/
def handleRequest (reg : Registry) (cfg : Config) (req : Request) : Response :=
  match splitFirstDot req.method with
  | none =>
      { id := req.id, payload := none,
        error := some ("Invalid method format. Expected 'service.method', got '"
          ++ req.method ++ "'") }
  | some (serviceName, methodName) =>
      match findService reg serviceName with
      | none =>
          { id := req.id, payload := none,
            error := some ("Service not found: " ++ serviceName) }
      | some service =>
          let result :=
            if service.callDuration methodName req.payload > cfg.timeoutMs then
              .error Error.Timeout
            else service.call methodName req.payload
          match result with
          | .ok payload => { id := req.id, payload := some payload, error := none }
          | .error e => { id := req.id, payload := none, error := some e.display }

/-- The frame loop of `handle_session` in `src/server.rs` (lines
161-235), at the level of decoded responses.  Each inbound frame is
deserialized as a `Request`; a deserialization failure propagates with
`?`, ending the session with that error — the remaining frames are
never read and no response is produced for the bad frame.  A decoded
request is handled to completion and its response sent before the next
frame is read, so responses appear in request order. -/
def sessionResponses (reg : Registry) (cfg : Config) :
    List Wire → List Response × Option Error
  | [] => ([], none)
  | frame :: rest =>
      match deserialize frame cfg.format with
      | .error e => ([], some e)
      | .ok (req : Request) =>
          let response := handleRequest reg cfg req
          let tail := sessionResponses reg cfg rest
          (response :: tail.1, tail.2)

/-- `handle_session` observed on the wire: the serialized frames
written back to the stream, plus the session's terminating error if
any (`None` means the loop ended at end-of-stream with `Ok(())`). -/
def handleSession (reg : Registry) (cfg : Config) (frames : List Wire) :
    List Wire × Option Error :=
  let r := sessionResponses reg cfg frames
  (r.1.map fun resp => serialize resp cfg.format, r.2)

/-- Handler duration of a request under the dispatch pipeline: error
responses (bad format, unknown service) are produced immediately, a
dispatched handler takes its `callDuration` capped by the server
timeout. -/
def requestDuration (reg : Registry) (cfg : Config) (req : Request) : Nat :=
  match splitFirstDot req.method with
  | none => 0
  | some (serviceName, methodName) =>
      match findService reg serviceName with
      | none => 0
      | some service =>
          min (service.callDuration methodName req.payload) cfg.timeoutMs

/-- Insertion into a list sorted by completion time with arrival index
as tie-break. -/
def insertByCompletion (x : Nat × Nat × Fin U64) :
    List (Nat × Nat × Fin U64) → List (Nat × Nat × Fin U64)
  | [] => [x]
  | y :: ys =>
      if x.1 < y.1 || (x.1 = y.1 && x.2.1 ≤ y.2.1) then x :: y :: ys
      else y :: insertByCompletion x ys

/-- Sort completion records. -/
def sortByCompletion (l : List (Nat × Nat × Fin U64)) :
    List (Nat × Nat × Fin U64) :=
  l.foldr insertByCompletion []

/-- Modelled from the spec: the on-wire response order §4.F's
concurrency policy prescribes.  The spec states that the server spawns
each handler as its own task and immediately continues reading, so
handler `i` starts at its arrival tick `i` and completes at
`i + duration`; responses are written in completion order (arrival
order breaking ties).  This definition exists to be compared with the
sequential order the code produces. -/
def specOnWireOrder (reg : Registry) (cfg : Config) (reqs : List Request) :
    List (Fin U64) :=
  let completions := (List.range reqs.length).zip reqs |>.map
    fun p => (p.1 + requestDuration reg cfg p.2, p.1, p.2.id)
  (sortByCompletion completions).map fun r => r.2.2

/-- The on-wire response order the code produces for a list of
well-formed frames: the ids of the responses in send order. -/
def codeOnWireOrder (reg : Registry) (cfg : Config) (reqs : List Request) :
    List (Fin U64) :=
  ((sessionResponses reg cfg (reqs.map fun r => serialize r cfg.format)).1).map
    fun resp => resp.id

/-- A JSON-format configuration used by the concrete scenarios. -/
def cfgJson : Config := { Config.default with format := .Json }

/-- An echo-style service whose method named slow takes 100 ms and any
other method returns immediately; used to compare response orders. -/
def slowFastService : Service :=
  { call := fun _ payload => .ok payload,
    callDuration := fun m _ => if m = "slow" then 100 else 0,
    methods := ["slow", "fast"] }

/-- A first registered handle, distinguishable by its method list. -/
def handleA : Service :=
  { call := fun _ payload => .ok payload,
    callDuration := fun _ _ => 0,
    methods := ["a"] }

/-- A second handle registered under the same name as the first. -/
def handleB : Service :=
  { call := fun _ payload => .ok payload,
    callDuration := fun _ _ => 0,
    methods := ["b"] }

/-- A connected client with no pending calls and id counter 0. -/
def readyClient : ClientState :=
  { session := some (), messageStream := some (), pending := [], nextId := 0 }

theorem decByte_num (b : Byte) : decByte (.num b.val) = .ok b := by
  simp [decByte, b.isLt]

theorem decBytes_arr (bs : ByteSeq) :
    decBytes (.arr (bs.map fun b => .num b.val)) = .ok bs := by
  induction bs with
  | nil => rfl
  | cons b tl ih =>
      simp only [decBytes, List.map_cons] at *
      simp [decByteList, decByte_num b, ih, bind, Except.bind, pure, Except.pure]

theorem decBytes_jsonOfBytes (bs : ByteSeq) : decBytes (jsonOfBytes bs) = .ok bs :=
  decBytes_arr bs

theorem decU64_num (i : Fin U64) : decU64 (.num i.val) = .ok i := by
  simp [decU64, i.isLt]

theorem request_json_round (r : Request) :
    Request.fromJson r.toJson = .ok r := by
  obtain ⟨i, m, p⟩ := r
  simp [Request.toJson, Request.fromJson, jget, jfield, List.find?, decU64_num,
    decStr, decBytes_jsonOfBytes, bind, Except.bind, pure, Except.pure]

theorem response_json_round (p : Response) :
    Response.fromJson p.toJson = .ok p := by
  obtain ⟨i, pay, err⟩ := p
  cases pay <;> cases err <;>
    simp [Response.toJson, Response.fromJson, jget, jfield, List.find?,
      decU64_num, decStr, decOpt, jsonOfBytes, decBytes_arr, bind,
      Except.bind, pure, Except.pure, Except.map]

theorem request_proto_round (r : Request) :
    Request.fromProto r.toProto = .ok r := by
  obtain ⟨i, m, p⟩ := r
  by_cases hi : i.val = 0 <;> by_cases hm : m = "" <;> by_cases hp : p = [] <;>
    simp_all [Request.toProto, Request.fromProto, List.foldl] <;>
    exact Fin.ext hi.symm

theorem response_proto_round (p : Response) :
    Response.fromProto p.toProto = .ok p := by
  obtain ⟨i, pay, err⟩ := p
  by_cases hi : i.val = 0 <;> cases pay <;> cases err <;>
    simp_all [Response.toProto, Response.fromProto, List.foldl] <;>
    exact Fin.ext hi.symm

theorem request_round_trip (x : Request) (f : SerializationFormat) :
    deserialize (serialize x f) f = Except.ok x := by
  cases f
  · exact request_proto_round x
  · exact request_json_round x

theorem response_round_trip (x : Response) (f : SerializationFormat) :
    deserialize (serialize x f) f = Except.ok x := by
  cases f
  · exact response_proto_round x
  · exact response_json_round x

theorem pendingLookup_insert (id : Fin U64) (tok : Nat) (p : PendingTable) :
    pendingLookup id (pendingInsert id tok p) = some tok := by
  simp [pendingLookup, pendingInsert, List.find?]

/-- C5: for every `Request` value, every `Response` value, and each
serialization format in Protobuf, Json, deserializing the bytes
produced by serializing the value in that format succeeds and yields
the value back. -/
theorem serialize_deserialize_round_trip :
    (∀ (x : Request) (f : SerializationFormat),
        deserialize (serialize x f) f = Except.ok x) ∧
    (∀ (x : Response) (f : SerializationFormat),
        deserialize (serialize x f) f = Except.ok x) :=
  ⟨request_round_trip, response_round_trip⟩

/-- C1 counterexample: on a connected client with an empty pending
table, a call whose deadline expires fails with `Timeout`, yet the
pending entry registered under the allocated id 0 is still in the
table afterwards — the claim states no entry with that id remains. -/
theorem timeout_claim_counterexample :
    (clientCall readyClient 5 true .deadline).outcome = .error .Timeout ∧
    pendingLookup 0 (clientCall readyClient 5 true .deadline).state.pending =
      some 5 := by
  decide

/-- C1 amended: a call whose response does not arrive within
`config.timeout_ms` fails with `Timeout`, but the pending-table entry
registered for its id is not removed at the deadline; it stays in the
table (until a late response or `close` clears it). -/
theorem timeout_keeps_pending_entry (st : ClientState) (tok : Nat)
    (h : st.messageStream = some ()) :
    (clientCall st tok true .deadline).outcome = .error .Timeout ∧
    pendingLookup st.nextId (clientCall st tok true .deadline).state.pending =
      some tok := by
  simp [clientCall, h, pendingLookup_insert]

/-- Witness for the amended timeout behavior at a concrete client. -/
theorem timeout_keeps_pending_entry_witness :
    (clientCall readyClient 5 true .deadline).outcome = .error .Timeout ∧
    pendingLookup readyClient.nextId
      (clientCall readyClient 5 true .deadline).state.pending = some 5 :=
  timeout_keeps_pending_entry readyClient 5 (by decide)

/-- C2 counterexample: a session receiving an undecodable frame followed
by a well-formed request produces no response at all — in particular no
`id = 0`, `error = "malformed request"` response — and ends with the
deserialization error, so the well-formed frame is never handled. -/
theorem malformed_frame_counterexample :
    sessionResponses [] cfgJson
        [.json .null, serialize (⟨1, "a.b", []⟩ : Request) .Json] =
      ([], some (.Deserialization "invalid type: expected object")) := by
  decide

/-- C2 amended: an inbound frame that fails to deserialize as a
`Request` terminates `handle_session` with that error: the session is
torn down, no response is sent for the frame, and subsequent frames on
the stream are not processed. -/
theorem malformed_frame_tears_down_session (reg : Registry) (cfg : Config)
    (frame : Wire) (rest : List Wire) (e : Error)
    (h : (deserialize frame cfg.format : Except Error Request) = .error e) :
    sessionResponses reg cfg (frame :: rest) = ([], some e) := by
  simp [sessionResponses, h]

/-- Witness for the amended malformed-frame behavior at a concrete
frame. -/
theorem malformed_frame_tears_down_session_witness :
    sessionResponses [] cfgJson [.json .null] =
      ([], some (.Deserialization "invalid type: expected object")) :=
  malformed_frame_tears_down_session [] cfgJson (.json .null) []
    (.Deserialization "invalid type: expected object") (by decide)

/-- C3 counterexample: with id 0 still pending (held by sender token
17) and the allocator's next id equal to 0, a new call is handed id 0
— an id of a pending call — and registering it replaces the pending
entry (the table now maps 0 to the new token 99). -/
theorem id_allocation_counterexample :
    pendingLookup 0 [((0 : Fin U64), 17)] = some 17 ∧
    (clientCall { readyClient with pending := [(0, 17)] } 99 true
        .deadline).reqId = 0 ∧
    pendingLookup 0
      (clientCall { readyClient with pending := [(0, 17)] } 99 true
        .deadline).state.pending = some 99 := by
  decide

/-- C3 amended: the allocator hands out exactly the stored next id and
advances it by one with wrap-around at `2^64`; it never consults the
pending table, so a candidate equal to a pending id is used anyway and
the colliding registration replaces the older pending entry. -/
theorem id_allocation_no_skip (st : ClientState) (tok : Nat) (sendOk : Bool) :
    (clientCall st tok sendOk .deadline).reqId = st.nextId ∧
    (clientCall st tok sendOk .deadline).state.nextId.val =
      (st.nextId.val + 1) % U64 ∧
    (clientCall st tok sendOk .deadline).state.pending =
      pendingInsert st.nextId tok st.pending := by
  cases h : st.messageStream <;> cases sendOk <;>
    simp [clientCall, h, Fin.add_def]

/-- C4 counterexample: with one service whose slow method takes 100 ms
and whose fast method is immediate, the session embedding answers the
requests in arrival order (ids 1 then 2), whereas the order prescribed
by the spec's concurrency policy — completion order of spawned
handlers — is 2 then 1. -/
theorem response_order_counterexample :
    codeOnWireOrder [("s", slowFastService)] cfgJson
        [⟨1, "s.slow", []⟩, ⟨2, "s.fast", []⟩] = [1, 2] ∧
    specOnWireOrder [("s", slowFastService)] cfgJson
        [⟨1, "s.slow", []⟩, ⟨2, "s.fast", []⟩] = [2, 1] ∧
    ([1, 2] : List (Fin U64)) ≠ [2, 1] := by
  refine ⟨by decide, by decide, by decide⟩

/-- C4 amended: the server handles each decoded request inline — the
handler runs to completion (under the per-call timeout) and its
response is sent before the next frame is read — so handlers on one
stream execute sequentially and the on-wire order of responses is
exactly the arrival order of the requests. -/
theorem responses_in_request_order (reg : Registry) (cfg : Config)
    (reqs : List Request) :
    sessionResponses reg cfg (reqs.map fun r => serialize r cfg.format) =
      (reqs.map (handleRequest reg cfg), none) := by
  induction reqs with
  | nil => rfl
  | cons r rs ih =>
      simp [sessionResponses, request_round_trip r cfg.format, ih]

/-- C6 counterexample: registering a second handle under the name
"echo" succeeds (`Ok`) instead of returning an error, and the registry
afterwards holds the second handle (method list `["b"]`), not the
original one (method list `["a"]`). -/
theorem register_duplicate_counterexample :
    (registerService (registerService [] "echo" handleA).1 "echo" handleB).2 =
      .ok () ∧
    (findService
        (registerService (registerService [] "echo" handleA).1 "echo"
          handleB).1 "echo").map Service.methods = some ["b"] ∧
    some ["b"] ≠ (some ["a"] : Option (List String)) := by
  refine ⟨rfl, rfl, by decide⟩

theorem find_filter_ne (reg : Registry) (name other : String)
    (h : (other == name) = false) :
    ((reg.filter fun e => e.1 != name).find? fun e => e.1 == other) =
      reg.find? fun e => e.1 == other := by
  induction reg with
  | nil => rfl
  | cons e tl ih =>
      by_cases he : e.1 == name
      · have hne : (e.1 == other) = false := by
          have h1 : e.1 = name := by simpa using he
          have h2 : other ≠ name := by simpa using h
          simp [h1]
          exact fun hh => h2 hh.symm
        have hbne : (e.1 != name) = false := by simp [bne, he]
        simp [List.filter_cons, List.find?, hbne, hne, ih]
      · have hb : (e.1 != name) = true := by simp_all
        by_cases ho : e.1 == other
        · simp [List.filter, List.find?, hb, ho]
        · simp only [List.filter, List.find?, hb, ho, Bool.false_eq_true,
            if_false]
          simpa [List.find?, ho] using ih

/-- C6 amended: a second `register_service` call with an
already-registered name returns `Ok` and replaces the original handle:
a lookup of that name afterwards yields the new handle, while every
other name is unaffected. -/
theorem register_service_replaces (reg : Registry) (name : String)
    (svc : Service) (other : String) :
    (registerService reg name svc).2 = .ok () ∧
    findService (registerService reg name svc).1 other =
      (if other = name then some svc else findService reg other) := by
  refine ⟨rfl, ?_⟩
  by_cases h : other = name
  · simp [registerService, findService, List.find?, h]
  · have hb : (name == other) = false := by
      simp
      exact fun hh => h hh.symm
    have hb2 : (other == name) = false := by simpa using h
    simp only [registerService, findService, List.find?, hb, h, if_false]
    rw [find_filter_ne reg name other hb2]

/-- C7 counterexample: calling method "nope.x" against an empty
registry yields a response with the original id, no payload, and error
string "Service not found: nope" — capitalized, unlike the claimed
"service not found: nope". -/
theorem service_not_found_message_counterexample :
    handleRequest [] cfgJson ⟨7, "nope.x", []⟩ =
      ⟨7, none, some "Service not found: nope"⟩ ∧
    some "Service not found: nope" ≠ some "service not found: nope" := by
  refine ⟨by decide, by decide⟩

/-- C7 amended: for a request whose method splits at the first dot into
a service part absent from the registry, the server responds with the
request's original id, no payload, and error "Service not found: "
followed by the service part (capital S). -/
theorem service_not_found_response (reg : Registry) (cfg : Config)
    (req : Request) (serviceName methodName : String)
    (hsplit : splitFirstDot req.method = some (serviceName, methodName))
    (hmiss : findService reg serviceName = none) :
    handleRequest reg cfg req =
      ⟨req.id, none, some ("Service not found: " ++ serviceName)⟩ := by
  simp [handleRequest, hsplit, hmiss]

/-- Witness for the amended service-not-found response at a concrete
request. -/
theorem service_not_found_response_witness :
    handleRequest [] cfgJson ⟨7, "nope.x", []⟩ =
      ⟨7, none, some ("Service not found: " ++ "nope")⟩ :=
  service_not_found_response [] cfgJson ⟨7, "nope.x", []⟩ "nope" "x"
    (by decide) rfl

/-- C8: `validate_connection_params` implements exactly the claimed
rules (a keep-alive below 100 ms is rejected as `InvalidConfig`), but
neither `Client::new` nor `Server::new` ever invokes it: with
`keep_alive_ms = Some(50)` both constructors succeed — the
configuration builders perform no parameter validation. -/
theorem config_validation_not_enforced :
    validateConnectionParams (some 50) (some 30000) 100 =
      .error (.InvalidConfig "Keep-alive interval must be at least 100ms") ∧
    clientNew { Config.default with keepAliveMs := some 50 } true true =
      .ok { session := none, messageStream := none, pending := [], nextId := 0 } ∧
    serverNew { Config.default with keepAliveMs := some 50, hasCertPath := true, hasKeyPath := true } true true =
      .ok () := by
  refine ⟨by decide, by decide, by decide⟩

/-- C9: `Client::close` is idempotent — closing an already-closed
client reproduces the same terminal state (no session, no message
stream, empty pending table) and the second call also returns `Ok`. -/
theorem close_idempotent (st : ClientState) :
    clientClose (clientClose st).1 = clientClose st ∧
    (clientClose (clientClose st).1).2 = .ok () ∧
    (clientClose st).1.session = none ∧
    (clientClose st).1.messageStream = none ∧
    (clientClose st).1.pending = [] := by
  simp [clientClose]

/-- C10: on a client whose message stream is absent (never connected,
or closed), `call` fails with `ConnectionClosed` — no other error kind
— and no frame is handed to the stream. -/
theorem call_without_stream_connection_closed (st : ClientState) (tok : Nat)
    (sendOk : Bool) (await : AwaitOutcome) (h : st.messageStream = none) :
    (clientCall st tok sendOk await).outcome = .error .ConnectionClosed ∧
    (clientCall st tok sendOk await).sentFrame = false := by
  simp [clientCall, h]

/-- Witness for the connection-closed failure at a concrete closed
client. -/
theorem call_without_stream_connection_closed_witness :
    (clientCall (clientClose readyClient).1 5 true .deadline).outcome =
      .error .ConnectionClosed ∧
    (clientCall (clientClose readyClient).1 5 true .deadline).sentFrame =
      false :=
  call_without_stream_connection_closed (clientClose readyClient).1 5 true
    .deadline (by decide)

end QuicServe
